import Mathlib

/-!
Verification of the MPD playback-engine core against its specification.

The definitions below are shallow embeddings of the C++ sources:
  * src/src/output/Source.cxx   (AudioOutputSource)
  * src/src/player/Control.cxx  (PlayerControl, with its header)
  * src/unnamed/part_000        (DecoderControl header)
PCM samples are modelled as exact rationals; machine floats in the
sources are modelled as rationals as well (the branch structure of the
embedded code never depends on rounding).  Collaborator code that is
not part of the sources (the replay-gain filter plugin, pcm_mix, the
player thread's command handlers) is modelled from the specification
and marked as such in its doc comment.
-/

namespace MPD

/-- Player state (src/src/player/Control.cxx header, enum PlayerState). -/
inductive PlayerState where
  | STOP
  | PAUSE
  | PLAY
  deriving DecidableEq, Repr

/-- Player command (src/src/player/Control.cxx header, enum PlayerCommand). -/
inductive PlayerCommand where
  | NONE
  | EXIT
  | STOP
  | PAUSE
  | SEEK
  | CLOSE_AUDIO
  | UPDATE_AUDIO
  | QUEUE
  | CANCEL
  | REFRESH
  deriving DecidableEq, Repr

/-- Decoder state (src/unnamed/part_000, enum DecoderState). -/
inductive DecoderState where
  | STOP
  | START
  | DECODE
  | ERROR
  deriving DecidableEq, Repr

/-- Decoder command (DecoderCommand.hxx is not in src; members per spec section 3:
"pending command ∈ \x7bNONE, START, STOP, SEEK\x7d"). -/
inductive DecoderCommand where
  | NONE
  | START
  | STOP
  | SEEK
  deriving DecidableEq, Repr

/-- Replay-gain mode (ReplayGainMode.hxx is not in src; the mode value is
only passed through by the embedded code, never inspected). -/
inductive ReplayGainMode where
  | OFF
  | TRACK
  | ALBUM
  | AUTO
  deriving DecidableEq, Repr

/-- PCM sample formats (pcm/SampleFormat is not in src; modelled minimally:
the embedded code only needs to distinguish formats pcm_mix supports from
ones it does not). -/
inductive SampleFormat where
  | S8
  | S16
  | S24_P32
  | S32
  | FLOAT
  | DSD
  deriving DecidableEq, Repr

/-- Modelled from the spec: which sample formats pcm_mix (pcm/PcmMix.cxx, not
in src) can mix.  Spec section 7 lists "FormatMismatch: cross-fade attempted
across incompatible sample formats" as a failure pcm_mix reports; DSD is the
format that cannot be mixed. -/
def mixable : SampleFormat → Bool
  | SampleFormat.DSD => false
  | _ => true

/-- Modelled from the spec: the state of a replay-gain filter instance
(filter/plugins/ReplayGainFilterPlugin, not in src).  Per the spec glossary,
replay gain is a "per-song loudness normalization gain applied as a streaming
PCM multiplication", so the filter state is the current mode together with the
currently configured gain factor; `none` info means unity gain. -/
structure RGFilter where
  mode : ReplayGainMode
  info : Option ℚ
  deriving DecidableEq, Repr

/-- Modelled from the spec: running the replay-gain filter over a PCM buffer
multiplies every sample by the currently configured gain. -/
def rgFilterPCM (f : RGFilter) (data : List ℚ) : List ℚ :=
  data.map fun s => s * f.info.getD 1

/-- The per-chunk fields that AudioOutputSource::GetChunkData reads
(MusicChunk.hxx is not in src; fields per spec section 3 "Chunk" and the
accesses in src/src/output/Source.cxx).  `data` is the chunk's PCM payload. -/
structure ChunkCore where
  data : List ℚ
  replay_gain_serial : Nat
  replay_gain_info : ℚ
  deriving DecidableEq, Repr

/-- Modelled from the spec (section 3 "Chunk": "special value IGNORE disables
replay-gain for this chunk"): the sentinel serial, MusicChunk::IGNORE_REPLAY_GAIN
(MusicChunk.hxx is not in src; the sentinel is the largest unsigned value). -/
def IGNORE_REPLAY_GAIN : Nat := 4294967295

/-- A music chunk as consumed by AudioOutputSource::FilterChunk: the core
fields plus the optional cross-fade companion (`other` in the source), the
mix ratio (`mix_ratio` in the source; in [0,1], or negative for the MixRamp
special case, per spec section 3) and the optional tag snapshot. -/
structure MusicChunk extends ChunkCore where
  other : Option ChunkCore
  mix_r : ℚ
  tag : Option Nat
  deriving DecidableEq, Repr

/-- AudioOutputSource::GetChunkData (src/src/output/Source.cxx:129-158).
The source mutates the filter instance and the serial through pointers; the
model returns the filtered data together with the updated filter instance and
updated serial.  When a filter is attached and the data is non-empty, the
source unconditionally sets the filter's mode, updates the filter's info and
the stored serial only when the chunk's serial differs from the stored one
and is not the IGNORE sentinel, and then unconditionally runs the filter. -/
def GetChunkData (chunk : ChunkCore) (replay_gain_filter : Option RGFilter)
    (serial : Nat) (replay_gain_mode : ReplayGainMode) :
    List ℚ × Option RGFilter × Nat :=
  match replay_gain_filter with
  | none => (chunk.data, none, serial)
  | some f =>
    if chunk.data.isEmpty then
      (chunk.data, some f, serial)
    else
      let f1 : RGFilter := { f with mode := replay_gain_mode }
      let newInfo : Option ℚ :=
        if chunk.replay_gain_serial ≠ 0 then some chunk.replay_gain_info
        else none
      let upd : RGFilter × Nat :=
        if chunk.replay_gain_serial ≠ serial ∧
            chunk.replay_gain_serial ≠ IGNORE_REPLAY_GAIN then
          ({ f1 with info := newInfo }, chunk.replay_gain_serial)
        else
          (f1, serial)
      (rgFilterPCM upd.1 chunk.data, some upd.1, upd.2)

/-- Modelled from the spec: pcm_mix (pcm/PcmMix.cxx, not in src).
pcm_mix(dither, buffer1, buffer2, size, format, portion1) mixes buffer2 into
the first `size` samples of buffer1 in place: when portion1 is non-negative,
each mixed sample is buffer1·portion1 + buffer2·(1−portion1) (spec section
4.4: "output = companion·(1−r) + primary·r with dither", combined with the
reversed portion passed by the caller; the dither term is abstracted to exact
arithmetic), and when portion1 is negative the samples are simply added (spec
section 4.4: "if negative, output = companion+primary (MixRamp additive)").
The trailer of buffer1 past `size` is left as-is.  It fails (the source
returns false) when the sample format cannot be mixed (spec section 7
"FormatMismatch"). -/
def pcm_mix (buffer1 buffer2 : List ℚ) (size : Nat) (format : SampleFormat)
    (portion1 : ℚ) : Option (List ℚ) :=
  if mixable format then
    let mixed :=
      if portion1 < 0 then
        List.zipWith (· + ·) (buffer1.take size) (buffer2.take size)
      else
        List.zipWith (fun a b => a * portion1 + b * (1 - portion1))
          (buffer1.take size) (buffer2.take size)
    some (mixed ++ buffer1.drop size)
  else
    none

/-- The fields of AudioOutputSource that GetChunkData and FilterChunk read and
write (Source.hxx is not in src; the fields are exactly the ones the code in
src/src/output/Source.cxx uses).  Only the sample format member of
in_audio_format matters to the embedded code. -/
structure SourceState where
  replay_gain_filter_instance : Option RGFilter
  other_replay_gain_filter_instance : Option RGFilter
  replay_gain_serial : Nat
  other_replay_gain_serial : Nat
  replay_gain_mode : ReplayGainMode
  in_audio_format : SampleFormat
  deriving DecidableEq, Repr

/-- AudioOutputSource::FilterChunk up to, but not including, the final output
filter chain application (src/src/output/Source.cxx:160-204): the replay-gain
step on the primary chunk and the cross-fade block.  Returns the buffer that
is about to be handed to filter_instance->FilterPCM, the updated source
state, and whether the output filter chain is applied at all (the source
returns early, skipping the chain, when the primary data is empty and also
when the companion data is empty).  Returns `none` on the pcm_mix failure
path, where the source throws FormatRuntimeError. -/
def FilterChunkMix (st : SourceState) (chunk : MusicChunk) :
    Option (List ℚ × SourceState × Bool) :=
  let r1 := GetChunkData chunk.toChunkCore st.replay_gain_filter_instance
      st.replay_gain_serial st.replay_gain_mode
  let data := r1.1
  let st1 := { st with replay_gain_filter_instance := r1.2.1,
                       replay_gain_serial := r1.2.2 }
  if data.isEmpty then
    some (data, st1, false)
  else
    match chunk.other with
    | none => some (data, st1, true)
    | some other =>
      let r2 := GetChunkData other st1.other_replay_gain_filter_instance
          st1.other_replay_gain_serial st1.replay_gain_mode
      let other_data := r2.1
      let st2 := { st1 with other_replay_gain_filter_instance := r2.2.1,
                            other_replay_gain_serial := r2.2.2 }
      if other_data.isEmpty then
        some (data, st2, false)
      else
        let data1 := if other_data.length < data.length then
            data.take other_data.length
          else
            data
        let mr := if 0 ≤ chunk.mix_r then 1 - chunk.mix_r else chunk.mix_r
        match pcm_mix other_data data1 data1.length st2.in_audio_format mr with
        | none => none
        | some dest => some (dest, st2, true)

/-- AudioOutputSource::FilterChunk (src/src/output/Source.cxx:160-209),
parameterized by the opened output filter chain instance (filter_instance;
the filter chain implementation is an external collaborator).  `none` models
the thrown FormatRuntimeError. -/
def FilterChunk (chain : List ℚ → List ℚ) (st : SourceState)
    (chunk : MusicChunk) : Option (List ℚ × SourceState) :=
  match FilterChunkMix st chunk with
  | none => none
  | some (data, st1, applyChain) =>
    some (if applyChain then chain data else data, st1)

/-- AudioOutputSource's chunk-consumption state as used by Fill
(src/src/output/Source.cxx:211-248).  The consumer's view of the pipe is
modelled as the list of chunks not yet taken; pipe.Get pops the head and
pipe.Consume returns the finished chunk to the buffer (dropped here, since
the free-list is not needed by these claims). -/
structure FillState extends SourceState where
  current_chunk : Option MusicChunk
  pending_tag : Option Nat
  pending_data : List ℚ
  pipe : List MusicChunk
  deriving DecidableEq, Repr

/-- AudioOutputSource::Fill (src/src/output/Source.cxx:211-239).  The Bool is
Fill's return value; `Except.error ()` models an exception propagating to the
caller.  The source catches any exception from FilterChunk, resets
current_chunk to nullptr, and re-throws. -/
def Fill (chain : List ℚ → List ℚ) (s : FillState) :
    Except Unit Bool × FillState :=
  let s :=
    if s.current_chunk.isSome && s.pending_tag.isNone &&
        s.pending_data.isEmpty then
      { s with current_chunk := none }
    else s
  if s.current_chunk.isSome then
    (Except.ok true, s)
  else
    match s.pipe with
    | [] => (Except.ok false, s)
    | c :: rest =>
      let s1 := { s with current_chunk := some c, pipe := rest,
                         pending_tag := c.tag }
      match FilterChunk chain s.toSourceState c with
      | none => (Except.error (), { s1 with current_chunk := none })
      | some (d, fs) =>
        (Except.ok true, { s1 with toSourceState := fs, pending_data := d })

/-- The DecoderControl fields these claims touch (src/unnamed/part_000).  The
stored std::exception_ptr is modelled as an optional abstract error value. -/
structure DecoderControl where
  state : DecoderState
  command : DecoderCommand
  error : Option Nat
  deriving DecidableEq, Repr

/-- DecoderControl::CheckRethrowError (src/unnamed/part_000:269-275).  It is a
const member function: it re-raises the stored error whenever the state is
ERROR and mutates nothing.  The first component is the raised error (`none`
means the call returned normally), the second the control afterwards. -/
def DecoderControl.checkRethrowError (dc : DecoderControl) :
    Option Nat × DecoderControl :=
  if dc.state = DecoderState.ERROR then (dc.error, dc) else (none, dc)

/-- DecoderControl::ClearError (src/unnamed/part_000:290-295). -/
def DecoderControl.clearError (dc : DecoderControl) : DecoderControl :=
  if dc.state = DecoderState.ERROR then
    { dc with error := none, state := DecoderState.STOP }
  else dc

/-- CrossFadeSettings (CrossFade.hxx is not in src; the three fields per spec
section 3 and their uses in src/src/player/Control.cxx). -/
structure CrossFadeSettings where
  duration : ℚ
  mixramp_db : ℚ
  mixramp_delay : ℚ
  deriving DecidableEq, Repr

/-- The PlayerControl fields these claims touch (src/src/player/Control.cxx
header).  The audio format is abstracted to an opaque-to-these-claims number;
times are exact rationals. -/
structure PlayerControl where
  state : PlayerState
  command : PlayerCommand
  occupied : Bool
  bit_rate : Nat
  audio_format : Nat
  total_time : ℚ
  elapsed_time : ℚ
  cross_fade : CrossFadeSettings
  border_pause : Bool
  deriving DecidableEq, Repr

/-- struct player_status (src/src/player/Control.cxx header).  The C++ struct
is returned with the fields other than `state` not assigned when the state is
STOP, so those fields are modelled as `Option`, `none` standing for "left
uninitialized". -/
structure player_status where
  state : PlayerState
  bit_rate : Option Nat
  audio_format : Option Nat
  total_time : Option ℚ
  elapsed_time : Option ℚ
  deriving DecidableEq, Repr

/-- PlayerControl::LockGetStatus (src/src/player/Control.cxx:153-172).  The
player thread's handling of the synchronous REFRESH handshake is abstracted
as a function `refresh` updating the control's cached fields (that handler is
in the player thread, outside src).  The Bool in the result records whether
the REFRESH command handshake was issued. -/
def LockGetStatus (refresh : PlayerControl → PlayerControl)
    (pc : PlayerControl) : Bool × player_status :=
  let pc1 := if pc.occupied then pc else refresh pc
  (!pc.occupied,
   { state := pc1.state,
     bit_rate := if pc1.state ≠ PlayerState.STOP then some pc1.bit_rate
       else none,
     audio_format := if pc1.state ≠ PlayerState.STOP then some pc1.audio_format
       else none,
     total_time := if pc1.state ≠ PlayerState.STOP then some pc1.total_time
       else none,
     elapsed_time := if pc1.state ≠ PlayerState.STOP then some pc1.elapsed_time
       else none })

/-- PlayerControl::SetCrossFade (src/src/player/Control.cxx:280-288): a
negative argument is clamped to zero before being stored. -/
def SetCrossFade (cross_fade_seconds : ℚ) (pc : PlayerControl) :
    PlayerControl :=
  let x := if cross_fade_seconds < 0 then 0 else cross_fade_seconds
  { pc with cross_fade := { pc.cross_fade with duration := x } }

/-- PlayerControl::GetCrossFade (src/src/player/Control.cxx header). -/
def GetCrossFade (pc : PlayerControl) : ℚ :=
  pc.cross_fade.duration

/-- PlayerControl::SetMixRampDb (src/src/player/Control.cxx:291-296). -/
def SetMixRampDb (mixramp_db : ℚ) (pc : PlayerControl) : PlayerControl :=
  { pc with cross_fade := { pc.cross_fade with mixramp_db := mixramp_db } }

/-- PlayerControl::SetMixRampDelay (src/src/player/Control.cxx:299-304). -/
def SetMixRampDelay (mixramp_delay_seconds : ℚ) (pc : PlayerControl) :
    PlayerControl :=
  { pc with cross_fade :=
      { pc.cross_fade with mixramp_delay := mixramp_delay_seconds } }

/-- Modelled from the spec (section 4.3 main loop, "PAUSE: toggle state
between PLAY↔PAUSE; pause/unpause outputs"): the player thread's handler for
PlayerCommand::PAUSE.  The player thread's code is not in src; only the state
field is modelled, the output side effects being external. -/
def processPauseCommand (pc : PlayerControl) : PlayerControl :=
  match pc.state with
  | PlayerState.PLAY => { pc with state := PlayerState.PAUSE }
  | PlayerState.PAUSE => { pc with state := PlayerState.PLAY }
  | PlayerState.STOP => pc

/-- PlayerControl::PauseLocked (src/src/player/Control.cxx:110-116): issues
the synchronous PAUSE command unless the player is stopped.  The synchronous
handshake leaves the command slot back at NONE; its net effect on the modelled
state is the PAUSE handler's effect. -/
def PauseLocked (pc : PlayerControl) : PlayerControl :=
  if pc.state ≠ PlayerState.STOP then processPauseCommand pc else pc

/-- PlayerControl::LockSetPause (src/src/player/Control.cxx:126-144). -/
def LockSetPause (pause_flag : Bool) (pc : PlayerControl) : PlayerControl :=
  match pc.state with
  | PlayerState.STOP => pc
  | PlayerState.PLAY => if pause_flag then PauseLocked pc else pc
  | PlayerState.PAUSE => if !pause_flag then PauseLocked pc else pc

/-- PlayerControl::LockSetBorderPause (src/src/player/Control.cxx:147-151). -/
def LockSetBorderPause (b : Bool) (pc : PlayerControl) : PlayerControl :=
  { pc with border_pause := b }

/-- PlayerControl::ApplyBorderPause (src/src/player/Control.cxx header):
forces the state to PAUSE when border_pause is set, returning border_pause. -/
def ApplyBorderPause (pc : PlayerControl) : Bool × PlayerControl :=
  (pc.border_pause,
   if pc.border_pause then { pc with state := PlayerState.PAUSE } else pc)

/-- The modelled PlayerControl mutators, used to state that the cross-fade
duration invariant is preserved by every operation embedded in this file. -/
inductive PCOp where
  | setCrossFade (x : ℚ)
  | setMixRampDb (x : ℚ)
  | setMixRampDelay (x : ℚ)
  | lockSetPause (f : Bool)
  | lockSetBorderPause (b : Bool)
  | applyBorderPause
  deriving DecidableEq, Repr

/-- Apply one modelled PlayerControl operation. -/
def applyOp : PCOp → PlayerControl → PlayerControl
  | PCOp.setCrossFade x, pc => SetCrossFade x pc
  | PCOp.setMixRampDb x, pc => SetMixRampDb x pc
  | PCOp.setMixRampDelay x, pc => SetMixRampDelay x pc
  | PCOp.lockSetPause f, pc => LockSetPause f pc
  | PCOp.lockSetBorderPause b, pc => LockSetBorderPause b pc
  | PCOp.applyBorderPause, pc => (ApplyBorderPause pc).2

/-- The state of the player command handshake (spec section 4.3 "Command
lifecycle"): the single command slot of PlayerControl, together with whether
the player thread has fully processed the last submitted command (the
spec-side notion the claim is about). -/
structure ProtocolState where
  command : PlayerCommand
  processed : Bool
  deriving DecidableEq, Repr

/-- Labels for the transitions of the command protocol in
src/src/player/Control.cxx: `submit cmd` is the body of SynchronousCommand
before the wait (lines 657-663: assert(command == NONE); command = cmd;
Signal()), `finish` is CommandFinished (lines 609-614: assert(command !=
NONE); command = NONE; ClientSignal()), and `clientReturn` is
WaitCommandLocked observing command == NONE and returning to the caller
(lines 645-648). -/
inductive ProtocolLabel where
  | submit (cmd : PlayerCommand)
  | finish
  | clientReturn
  deriving DecidableEq, Repr

/-- One transition of the player command protocol.  The guards are the
asserts and loop conditions of the source: a client submits only when the
slot is empty (and every source call site passes a command other than NONE);
CommandFinished fires only with a command pending and is the only transition
writing NONE into the slot; the client's synchronous wait returns only upon
observing command == NONE, changing nothing. -/
inductive ProtocolStep : ProtocolLabel → ProtocolState → ProtocolState → Prop
  | submit (s : ProtocolState) (cmd : PlayerCommand)
      (hguard : s.command = PlayerCommand.NONE)
      (hcmd : cmd ≠ PlayerCommand.NONE) :
      ProtocolStep (ProtocolLabel.submit cmd) s
        { command := cmd, processed := false }
  | finish (s : ProtocolState) (hguard : s.command ≠ PlayerCommand.NONE) :
      ProtocolStep ProtocolLabel.finish s
        { command := PlayerCommand.NONE, processed := true }
  | clientReturn (s : ProtocolState)
      (hguard : s.command = PlayerCommand.NONE) :
      ProtocolStep ProtocolLabel.clientReturn s s

/-- The initial protocol state: the command slot starts at NONE (field
initializer in the PlayerControl header) with nothing left unprocessed. -/
def initProtocol : ProtocolState :=
  { command := PlayerCommand.NONE, processed := true }

/-- The protocol states reachable from the initial state. -/
inductive ProtocolReachable : ProtocolState → Prop
  | init : ProtocolReachable initProtocol
  | step (l : ProtocolLabel) (s s' : ProtocolState) :
      ProtocolReachable s → ProtocolStep l s s' → ProtocolReachable s'

/-- The primary chunk's data after the per-song replay-gain filter: the value
of `data` computed at src/src/output/Source.cxx:163-164. -/
def primaryData (st : SourceState) (chunk : MusicChunk) : List ℚ :=
  (GetChunkData chunk.toChunkCore st.replay_gain_filter_instance
    st.replay_gain_serial st.replay_gain_mode).1

/-- The companion chunk's data after the companion replay-gain filter: the
value of `other_data` computed at src/src/output/Source.cxx:171-173 (the
companion filter state read there is unchanged by the preceding primary
filter step). -/
def companionData (st : SourceState) (o : ChunkCore) : List ℚ :=
  (GetChunkData o st.other_replay_gain_filter_instance
    st.other_replay_gain_serial st.replay_gain_mode).1

/-- A sample PlayerControl value, used to instantiate theorems with
hypotheses at concrete inputs. -/
def pc0 : PlayerControl :=
  { state := PlayerState.STOP, command := PlayerCommand.NONE,
    occupied := false, bit_rate := 7, audio_format := 3,
    total_time := 5, elapsed_time := 2,
    cross_fade := { duration := 0, mixramp_db := 0, mixramp_delay := 0 },
    border_pause := false }

/-- A sample source state with no replay-gain filters installed and a mixable
input format. -/
def st0 : SourceState :=
  { replay_gain_filter_instance := none,
    other_replay_gain_filter_instance := none,
    replay_gain_serial := 0, other_replay_gain_serial := 0,
    replay_gain_mode := ReplayGainMode.OFF,
    in_audio_format := SampleFormat.S16 }

/-! ## Theorems -/

/-- Pointwise-equal binary functions give equal zipWith results. -/
theorem zipWith_ext (f g : ℚ → ℚ → ℚ) (h : ∀ a b, f a b = g a b) :
    ∀ xs ys : List ℚ, List.zipWith f xs ys = List.zipWith g xs ys := by
  intro xs
  induction xs with
  | nil => intro ys; simp
  | cons a as ih =>
    intro ys
    cases ys with
    | nil => simp
    | cons b bs => simp [h, ih]

/-- The source's primary-data truncation (src/src/output/Source.cxx:182-183)
equals taking min(primary_len, companion_len) samples. -/
theorem truncate_eq_take_min (d o : List ℚ) :
    (if o.length < d.length then d.take o.length else d) =
      d.take (min d.length o.length) := by
  by_cases h : o.length < d.length
  · simp [h, min_eq_right h.le]
  · simp [h, min_eq_left (not_lt.mp h)]

/-- The normal form of FilterChunkMix on the cross-fade path: when the chunk
has a companion and both the primary and companion post-filter data are
non-empty and the format is mixable, the pre-chain buffer is the mix of the
first min(primary_len, companion_len) samples followed by the companion's
trailer, and the output filter chain is applied to it. -/
theorem filterChunkMix_crossfade (st : SourceState) (chunk : MusicChunk)
    (o : ChunkCore) (ho : chunk.other = some o)
    (hp : (primaryData st chunk).isEmpty = false)
    (hq : (companionData st o).isEmpty = false)
    (hf : mixable st.in_audio_format = true) :
    ∃ st2 : SourceState,
      FilterChunkMix st chunk =
        some ((if (if 0 ≤ chunk.mix_r then 1 - chunk.mix_r else chunk.mix_r)
                  < 0 then
                 List.zipWith (· + ·)
                   ((companionData st o).take
                     (min (primaryData st chunk).length
                       (companionData st o).length))
                   ((primaryData st chunk).take
                     (min (primaryData st chunk).length
                       (companionData st o).length))
               else
                 List.zipWith
                   (fun a b =>
                     a * (if 0 ≤ chunk.mix_r then 1 - chunk.mix_r
                          else chunk.mix_r) +
                     b * (1 - (if 0 ≤ chunk.mix_r then 1 - chunk.mix_r
                               else chunk.mix_r)))
                   ((companionData st o).take
                     (min (primaryData st chunk).length
                       (companionData st o).length))
                   ((primaryData st chunk).take
                     (min (primaryData st chunk).length
                       (companionData st o).length))) ++
              (companionData st o).drop
                (min (primaryData st chunk).length
                  (companionData st o).length),
              st2, true) := by
  simp only [primaryData] at hp
  simp only [companionData] at hq
  simp only [FilterChunkMix, primaryData, companionData, hp, ho, hq,
    Bool.false_eq_true, if_false, pcm_mix, hf, if_true,
    truncate_eq_take_min]
  simp only [List.length_take, List.take_take, min_self,
    min_left_comm, min_comm, min_assoc]
  exact ⟨_, rfl⟩


/-- Claim C2 is false on the code: with a primary of 1 sample and a companion
of 2 samples (no replay-gain filters installed, so the post-filter sizes are
1 and 2), the buffer produced by the cross-fade step of FilterChunk has size
2 — the companion's size — and not min(1, 2) = 1: the companion's trailer
past the primary's length is kept as-is (src/src/output/Source.cxx:177-204,
where the final size is other_data.size). -/
theorem crossfade_buffer_size_not_min :
    (primaryData st0
        { data := [1], replay_gain_serial := 0, replay_gain_info := 0,
          other := some { data := [2, 3], replay_gain_serial := 0,
                          replay_gain_info := 0 },
          mix_r := 0, tag := none }).length = 1 ∧
    (companionData st0
        { data := [2, 3], replay_gain_serial := 0,
          replay_gain_info := 0 }).length = 2 ∧
    (FilterChunkMix st0
        { data := [1], replay_gain_serial := 0, replay_gain_info := 0,
          other := some { data := [2, 3], replay_gain_serial := 0,
                          replay_gain_info := 0 },
          mix_r := 0, tag := none }).map (fun r => r.1.length) = some 2 ∧
    (2 : Nat) ≠ min 1 2 := by
  refine ⟨rfl, rfl, ?_, by decide⟩
  norm_num [FilterChunkMix, GetChunkData, pcm_mix, mixable, st0]

/-- Claim C2, amended: for a chunk with a companion whose primary and
companion post-filter data are both non-empty (and a mixable format, without
which FilterChunk throws), the buffer handed to the output filter chain has
size exactly companion_len — the companion's post-filter size — with the
first min(primary_len, companion_len) samples mixed and the companion's
trailer used as-is. -/
theorem crossfade_buffer_size_is_companion (st : SourceState)
    (chunk : MusicChunk) (o : ChunkCore) (ho : chunk.other = some o)
    (hp : (primaryData st chunk).isEmpty = false)
    (hq : (companionData st o).isEmpty = false)
    (hf : mixable st.in_audio_format = true) :
    ∃ buf st2, FilterChunkMix st chunk = some (buf, st2, true) ∧
      buf.length = (companionData st o).length := by
  obtain ⟨st2, heq⟩ := filterChunkMix_crossfade st chunk o ho hp hq hf
  refine ⟨_, st2, heq, ?_⟩
  by_cases hneg :
      (if 0 ≤ chunk.mix_r then 1 - chunk.mix_r else chunk.mix_r) < 0 <;>
    simp [hneg, List.length_zipWith, List.length_take]

/-- Witness for the amended claim C2 at a concrete chunk pair. -/
theorem crossfade_buffer_size_is_companion_witness :
    ∃ buf st2,
      FilterChunkMix st0
          { data := [1], replay_gain_serial := 0, replay_gain_info := 0,
            other := some { data := [2, 3], replay_gain_serial := 0,
                            replay_gain_info := 0 },
            mix_r := 0, tag := none } = some (buf, st2, true) ∧
      buf.length =
        (companionData st0
          { data := [2, 3], replay_gain_serial := 0,
            replay_gain_info := 0 }).length :=
  crossfade_buffer_size_is_companion st0
    { data := [1], replay_gain_serial := 0, replay_gain_info := 0,
      other := some { data := [2, 3], replay_gain_serial := 0,
                      replay_gain_info := 0 },
      mix_r := 0, tag := none }
    { data := [2, 3], replay_gain_serial := 0, replay_gain_info := 0 }
    rfl rfl rfl rfl

/-- Claim C3 is false on the code: when pcm_mix cannot mix the sample format
(here DSD), FilterChunk throws FormatRuntimeError
(src/src/output/Source.cxx:196-200) and Fill re-throws it after dropping the
chunk (src/src/output/Source.cxx:227-236) — the error does propagate out of
Fill to the caller, and the chunk is not played without fading. -/
theorem fill_crossfade_format_error_escapes :
    (Fill id
        { toSourceState := { st0 with in_audio_format := SampleFormat.DSD },
          current_chunk := none, pending_tag := none, pending_data := [],
          pipe := [{ data := [1], replay_gain_serial := 0,
                     replay_gain_info := 0,
                     other := some { data := [2], replay_gain_serial := 0,
                                     replay_gain_info := 0 },
                     mix_r := 0, tag := none }] }).1 = Except.error () := by
  rfl

/-- Claim C3, amended: when cross-fade mixing fails on a chunk (pcm_mix
reports an unmixable sample format), FilterChunk throws; Fill catches the
exception, resets current_chunk (dropping the chunk), and re-throws, so the
error does propagate out of Fill to its caller rather than the chunk being
played without fading.  (Avoiding this situation is the cross-fade planner's
job: it disables cross-fade when formats are incompatible.) -/
theorem fill_drops_chunk_and_rethrows (chain : List ℚ → List ℚ)
    (s : FillState) (c : MusicChunk) (rest : List MusicChunk)
    (hcur : s.current_chunk = none) (hpipe : s.pipe = c :: rest)
    (hfail : FilterChunk chain s.toSourceState c = none) :
    (Fill chain s).1 = Except.error () ∧
    (Fill chain s).2.current_chunk = none := by
  simp [Fill, hcur, hpipe, hfail]

/-- Witness for the amended claim C3 at a concrete unmixable chunk. -/
theorem fill_drops_chunk_and_rethrows_witness :
    (Fill id
        { toSourceState := { st0 with in_audio_format := SampleFormat.DSD },
          current_chunk := none, pending_tag := none, pending_data := [],
          pipe := [{ data := [3], replay_gain_serial := 0,
                     replay_gain_info := 0,
                     other := some { data := [4], replay_gain_serial := 0,
                                     replay_gain_info := 0 },
                     mix_r := 0, tag := none }] }).1 = Except.error () :=
  (fill_drops_chunk_and_rethrows id
    { toSourceState := { st0 with in_audio_format := SampleFormat.DSD },
      current_chunk := none, pending_tag := none, pending_data := [],
      pipe := [{ data := [3], replay_gain_serial := 0, replay_gain_info := 0,
                 other := some { data := [4], replay_gain_serial := 0,
                                 replay_gain_info := 0 },
                 mix_r := 0, tag := none }] }
    { data := [3], replay_gain_serial := 0, replay_gain_info := 0,
      other := some { data := [4], replay_gain_serial := 0,
                      replay_gain_info := 0 },
      mix_r := 0, tag := none }
    [] rfl rfl rfl).1

/-- Claim C5: for a chunk with a companion and non-empty primary and
companion post-filter data (and a mixable format), the mixed prefix — the
first min(primary_len, companion_len) samples of the buffer — equals
companion·(1−r) + primary·r when the chunk's mix ratio r is non-negative
(ratios lie in [0,1] per the chunk data model, spec section 3; the dither
term of pcm_mix is abstracted to exact arithmetic), and equals
companion + primary (the MixRamp additive case) when r is negative. -/
theorem crossfade_mix_samples (st : SourceState) (chunk : MusicChunk)
    (o : ChunkCore) (ho : chunk.other = some o)
    (hp : (primaryData st chunk).isEmpty = false)
    (hq : (companionData st o).isEmpty = false)
    (hf : mixable st.in_audio_format = true) :
    ∃ buf st2, FilterChunkMix st chunk = some (buf, st2, true) ∧
      (0 ≤ chunk.mix_r → chunk.mix_r ≤ 1 →
        buf.take (min (primaryData st chunk).length
            (companionData st o).length) =
          List.zipWith
            (fun c p => c * (1 - chunk.mix_r) + p * chunk.mix_r)
            ((companionData st o).take (min (primaryData st chunk).length
              (companionData st o).length))
            ((primaryData st chunk).take (min (primaryData st chunk).length
              (companionData st o).length))) ∧
      (chunk.mix_r < 0 →
        buf.take (min (primaryData st chunk).length
            (companionData st o).length) =
          List.zipWith (· + ·)
            ((companionData st o).take (min (primaryData st chunk).length
              (companionData st o).length))
            ((primaryData st chunk).take (min (primaryData st chunk).length
              (companionData st o).length))) := by
  obtain ⟨st2, heq⟩ := filterChunkMix_crossfade st chunk o ho hp hq hf
  refine ⟨_, st2, heq, ?_, ?_⟩
  · intro h0 h1
    have hcond : ¬ (1 - chunk.mix_r < 0) := by linarith
    have hzl :
        (List.zipWith
          (fun a b => a * (1 - chunk.mix_r) + b * (1 - (1 - chunk.mix_r)))
          ((companionData st o).take (min (primaryData st chunk).length
            (companionData st o).length))
          ((primaryData st chunk).take (min (primaryData st chunk).length
            (companionData st o).length))).length =
          min (primaryData st chunk).length (companionData st o).length := by
      simp only [List.length_zipWith, List.length_take]
      omega
    simp only [h0, if_true, hcond, if_false]
    rw [List.take_left' hzl]
    exact zipWith_ext _ _ (fun a b => by ring) _ _
  · intro hneg
    have h0 : ¬ (0 ≤ chunk.mix_r) := not_le.mpr hneg
    have hzl :
        (List.zipWith (· + ·)
          ((companionData st o).take (min (primaryData st chunk).length
            (companionData st o).length))
          ((primaryData st chunk).take (min (primaryData st chunk).length
            (companionData st o).length))).length =
          min (primaryData st chunk).length (companionData st o).length := by
      simp only [List.length_zipWith, List.length_take]
      omega
    simp only [h0, if_false, hneg, if_true]
    rw [List.take_left' hzl]

/-- Witness for claim C5 at a concrete chunk pair with mix ratio 1/2. -/
theorem crossfade_mix_samples_witness :
    ∃ buf st2,
      FilterChunkMix st0
          { data := [1], replay_gain_serial := 0, replay_gain_info := 0,
            other := some { data := [2, 3], replay_gain_serial := 0,
                            replay_gain_info := 0 },
            mix_r := 1 / 2, tag := none } = some (buf, st2, true) := by
  obtain ⟨buf, st2, heq, -, -⟩ :=
    crossfade_mix_samples st0
      { data := [1], replay_gain_serial := 0, replay_gain_info := 0,
        other := some { data := [2, 3], replay_gain_serial := 0,
                        replay_gain_info := 0 },
        mix_r := 1 / 2, tag := none }
      { data := [2, 3], replay_gain_serial := 0, replay_gain_info := 0 }
      rfl rfl rfl rfl
  exact ⟨buf, st2, heq⟩

/-- Claim C1 is false on the code: for a chunk whose replay_gain_serial is
the IGNORE sentinel, GetChunkData still runs the installed replay-gain filter
over the chunk's data (src/src/output/Source.cxx:154 is reached
unconditionally when a filter is attached and the data is non-empty); only
the filter's info/serial update is skipped.  Concretely, with a filter whose
previously configured gain is 2, the chunk [1] comes back as [2]. -/
theorem ignore_serial_chunk_still_filtered :
    (GetChunkData
        { data := [1], replay_gain_serial := IGNORE_REPLAY_GAIN,
          replay_gain_info := 0 }
        (some { mode := ReplayGainMode.TRACK, info := some 2 }) 5
        ReplayGainMode.TRACK).1 ≠
      [1] := by
  simp [GetChunkData, rgFilterPCM, IGNORE_REPLAY_GAIN]

/-- Claim C1, amended: for a chunk whose replay_gain_serial equals
IGNORE_REPLAY_GAIN (and non-empty data), GetChunkData does not update the
installed filter's gain info or the stored serial; it still runs the filter
over the chunk's data with its previously configured info (only the filter
mode is refreshed), so the bytes returned are the chunk's bytes transformed
by the filter's previous settings, not the unmodified chunk bytes. -/
theorem getChunkData_ignore_serial_skips_update (chunk : ChunkCore)
    (f : RGFilter) (serial : Nat) (mode : ReplayGainMode)
    (hser : chunk.replay_gain_serial = IGNORE_REPLAY_GAIN)
    (hdata : chunk.data.isEmpty = false) :
    GetChunkData chunk (some f) serial mode =
      (rgFilterPCM { f with mode := mode } chunk.data,
       some { f with mode := mode }, serial) := by
  simp [GetChunkData, hser, hdata]

/-- Witness for the amended claim C1 at a concrete chunk and filter. -/
theorem getChunkData_ignore_serial_skips_update_witness :
    GetChunkData
        { data := [1], replay_gain_serial := IGNORE_REPLAY_GAIN,
          replay_gain_info := 0 }
        (some { mode := ReplayGainMode.OFF, info := some 2 }) 5
        ReplayGainMode.TRACK =
      (rgFilterPCM { mode := ReplayGainMode.TRACK, info := some 2 } [1],
       some { mode := ReplayGainMode.TRACK, info := some 2 }, 5) :=
  getChunkData_ignore_serial_skips_update _ _ 5 _ rfl rfl

/-- Claim C4 is false on the code: DecoderControl::CheckRethrowError is a
const member function that clears nothing, so with the decoder in state ERROR
and a stored error, an immediately following second call re-raises the stored
error exactly like the first one (it does not raise "exactly once"). -/
theorem checkRethrowError_raises_twice :
    (DecoderControl.checkRethrowError
        { state := DecoderState.ERROR, command := DecoderCommand.NONE,
          error := some 7 }).1 = some 7 ∧
    (DecoderControl.checkRethrowError
        (DecoderControl.checkRethrowError
          { state := DecoderState.ERROR, command := DecoderCommand.NONE,
            error := some 7 }).2).1 = some 7 := by
  decide

/-- Claim C4, amended: while the decoder state remains ERROR,
CheckRethrowError re-raises the stored error on every call (it mutates
nothing, so a second immediately following call raises again); the error is
dropped only by ClearError, which transitions ERROR to STOP, after which
CheckRethrowError raises nothing. -/
theorem checkRethrowError_raises_until_cleared {e : Nat}
    (dc : DecoderControl) (hs : dc.state = DecoderState.ERROR)
    (he : dc.error = some e) :
    DecoderControl.checkRethrowError dc = (some e, dc) ∧
    DecoderControl.checkRethrowError
        (DecoderControl.checkRethrowError dc).2 = (some e, dc) ∧
    (DecoderControl.checkRethrowError (DecoderControl.clearError dc)).1 =
      none ∧
    (DecoderControl.clearError dc).state = DecoderState.STOP := by
  simp [DecoderControl.checkRethrowError, DecoderControl.clearError, hs, he]

/-- Witness for the amended claim C4 at a concrete decoder control. -/
theorem checkRethrowError_raises_until_cleared_witness :
    DecoderControl.checkRethrowError
        { state := DecoderState.ERROR, command := DecoderCommand.NONE,
          error := some 7 } =
      (some 7,
       { state := DecoderState.ERROR, command := DecoderCommand.NONE,
         error := some 7 }) :=
  (checkRethrowError_raises_until_cleared _ rfl rfl).1

/-- Claim C6 is false on the code in the STOP state: with `occupied` set,
LockGetStatus indeed skips the REFRESH handshake, but it does not return the
cached bit_rate (nor the other numeric fields) when the cached state is STOP —
those fields of player_status are left unassigned
(src/src/player/Control.cxx:164-169 only copies them when state != STOP).
Here the cached bit_rate is 7, yet the returned status carries no bit_rate. -/
theorem lockGetStatus_occupied_stop_not_cached :
    (LockGetStatus id { pc0 with occupied := true }).1 = false ∧
    (LockGetStatus id { pc0 with occupied := true }).2.bit_rate ≠ some 7 := by
  decide

/-- Claim C6, amended: if `occupied` is true when LockGetStatus is called, no
REFRESH command handshake is issued and the returned status carries the
currently cached state — and, whenever that state is not STOP, also the
cached bit_rate, audio_format, total_time and elapsed_time (in state STOP
those four fields are left unassigned); if `occupied` is false, a synchronous
REFRESH is issued first and the fields are read from the refreshed control. -/
theorem lockGetStatus_occupied_cached (refresh : PlayerControl → PlayerControl)
    (pc : PlayerControl) :
    (pc.occupied = true →
      (LockGetStatus refresh pc).1 = false ∧
      (LockGetStatus refresh pc).2.state = pc.state ∧
      (pc.state ≠ PlayerState.STOP →
        (LockGetStatus refresh pc).2 =
          { state := pc.state, bit_rate := some pc.bit_rate,
            audio_format := some pc.audio_format,
            total_time := some pc.total_time,
            elapsed_time := some pc.elapsed_time })) ∧
    (pc.occupied = false →
      (LockGetStatus refresh pc).1 = true ∧
      (LockGetStatus refresh pc).2.state = (refresh pc).state ∧
      ((refresh pc).state ≠ PlayerState.STOP →
        (LockGetStatus refresh pc).2 =
          { state := (refresh pc).state,
            bit_rate := some (refresh pc).bit_rate,
            audio_format := some (refresh pc).audio_format,
            total_time := some (refresh pc).total_time,
            elapsed_time := some (refresh pc).elapsed_time })) := by
  constructor
  · intro h
    refine ⟨by simp [LockGetStatus, h], by simp [LockGetStatus, h], ?_⟩
    intro hs
    simp [LockGetStatus, h, hs]
  · intro h
    refine ⟨by simp [LockGetStatus, h], by simp [LockGetStatus, h], ?_⟩
    intro hs
    simp [LockGetStatus, h, hs]

/-- Witness for the amended claim C6 at a concrete occupied control. -/
theorem lockGetStatus_occupied_cached_witness :
    (LockGetStatus id
        { pc0 with occupied := true, state := PlayerState.PLAY }).1 =
      false :=
  ((lockGetStatus_occupied_cached id
      { pc0 with occupied := true, state := PlayerState.PLAY }).1 rfl).1

/-- Claim C7: in every reachable state of the player command protocol,
command == NONE holds iff the player thread has fully processed the last
submitted command; a client submits only when command == NONE (the assert in
SynchronousCommand); CommandFinished is the only transition that writes NONE
back into the slot; and the client's synchronous wait returns only upon
observing command == NONE, changing no state. -/
theorem command_none_iff_processed :
    (∀ s, ProtocolReachable s →
      (s.command = PlayerCommand.NONE ↔ s.processed = true)) ∧
    (∀ l s s', ProtocolStep l s s' → s.command ≠ PlayerCommand.NONE →
      s'.command = PlayerCommand.NONE → l = ProtocolLabel.finish) ∧
    (∀ cmd s s', ProtocolStep (ProtocolLabel.submit cmd) s s' →
      s.command = PlayerCommand.NONE ∧ s'.command = cmd) ∧
    (∀ s s', ProtocolStep ProtocolLabel.clientReturn s s' →
      s'.command = PlayerCommand.NONE ∧ s' = s) := by
  refine ⟨?_, ?_, ?_, ?_⟩
  · intro s hs
    induction hs with
    | init => simp [initProtocol]
    | step l t t' ht hstep ih =>
      cases hstep with
      | submit u cmd hguard hcmd => simp [hcmd]
      | finish u hguard => simp
      | clientReturn u hguard => exact ih
  · intro l s s' hstep hne hnone
    cases hstep with
    | submit u cmd hguard hcmd => exact absurd hguard hne
    | finish u hguard => rfl
    | clientReturn u hguard => exact absurd hguard hne
  · intro cmd s s' hstep
    cases hstep with
    | submit u cmd hguard hcmd => exact ⟨hguard, rfl⟩
  · intro s s' hstep
    cases hstep with
    | clientReturn u hguard => exact ⟨hguard, rfl⟩

/-- Witness for claim C7: the invariant instantiated at the (reachable)
initial protocol state. -/
theorem command_none_iff_processed_witness :
    initProtocol.command = PlayerCommand.NONE ↔
      initProtocol.processed = true :=
  command_none_iff_processed.1 initProtocol ProtocolReachable.init

/-- Claim C8: when the state read by LockGetStatus is STOP, only the state
field of the returned player_status is assigned; bit_rate, audio_format,
total_time and elapsed_time are left unassigned (modelled as none). -/
theorem lockGetStatus_stop_leaves_fields_unassigned
    (refresh : PlayerControl → PlayerControl) (pc : PlayerControl)
    (h : (if pc.occupied then pc else refresh pc).state = PlayerState.STOP) :
    (LockGetStatus refresh pc).2.state = PlayerState.STOP ∧
    (LockGetStatus refresh pc).2.bit_rate = none ∧
    (LockGetStatus refresh pc).2.audio_format = none ∧
    (LockGetStatus refresh pc).2.total_time = none ∧
    (LockGetStatus refresh pc).2.elapsed_time = none := by
  simp [LockGetStatus, h]

/-- Witness for claim C8 at a concrete stopped control. -/
theorem lockGetStatus_stop_leaves_fields_unassigned_witness :
    (LockGetStatus id pc0).2.bit_rate = none :=
  (lockGetStatus_stop_leaves_fields_unassigned id pc0 rfl).2.1

/-- Claim C9: SetCrossFade stores max(x, 0); every modelled PlayerControl
operation preserves 0 ≤ cross_fade.duration; and GetCrossFade never returns a
negative value when the invariant holds. -/
theorem setCrossFade_clamps_and_duration_nonneg :
    (∀ x pc, (SetCrossFade x pc).cross_fade.duration = max x 0) ∧
    (∀ op pc, 0 ≤ pc.cross_fade.duration →
      0 ≤ (applyOp op pc).cross_fade.duration) ∧
    (∀ pc, 0 ≤ pc.cross_fade.duration → 0 ≤ GetCrossFade pc) := by
  have hsc : ∀ x (pc : PlayerControl),
      (SetCrossFade x pc).cross_fade.duration = max x 0 := by
    intro x pc
    by_cases h : x < 0
    · simp [SetCrossFade, h, max_eq_right h.le]
    · simp [SetCrossFade, h, max_eq_left (not_lt.mp h)]
  have hpause : ∀ (pc : PlayerControl),
      (processPauseCommand pc).cross_fade = pc.cross_fade := by
    intro pc
    cases h : pc.state <;> simp [processPauseCommand, h]
  refine ⟨hsc, ?_, ?_⟩
  · intro op pc h
    cases op with
    | setCrossFade x =>
      rw [applyOp, hsc]
      exact le_max_right x 0
    | setMixRampDb x => simpa [applyOp, SetMixRampDb] using h
    | setMixRampDelay x => simpa [applyOp, SetMixRampDelay] using h
    | lockSetPause f =>
      have : (LockSetPause f pc).cross_fade = pc.cross_fade := by
        cases hs : pc.state <;>
          simp [LockSetPause, PauseLocked, hs, hpause] <;>
          by_cases hf : f <;> simp [hf, hpause, hs, processPauseCommand]
      simpa [applyOp, this] using h
    | lockSetBorderPause b => simpa [applyOp, LockSetBorderPause] using h
    | applyBorderPause =>
      have : ((ApplyBorderPause pc).2).cross_fade = pc.cross_fade := by
        by_cases hb : pc.border_pause <;> simp [ApplyBorderPause, hb]
      simpa [applyOp, this] using h
  · intro pc h
    simpa [GetCrossFade] using h

/-- Witness for claim C9: a negative argument is clamped and the invariant
holds at a concrete control. -/
theorem setCrossFade_clamps_and_duration_nonneg_witness :
    0 ≤ (applyOp (PCOp.setCrossFade (-5)) pc0).cross_fade.duration :=
  setCrossFade_clamps_and_duration_nonneg.2.1 (PCOp.setCrossFade (-5)) pc0
    (le_refl 0)

/-- Claim C10: LockSetPause is idempotent — a second call with the same flag
leaves the state of the first call unchanged — and it is a no-op when the
state is STOP, when the flag is true and the state is already PAUSE, and when
the flag is false and the state is already PLAY. -/
theorem lockSetPause_idempotent :
    (∀ f pc, LockSetPause f (LockSetPause f pc) = LockSetPause f pc) ∧
    (∀ f pc, pc.state = PlayerState.STOP → LockSetPause f pc = pc) ∧
    (∀ pc, pc.state = PlayerState.PAUSE → LockSetPause true pc = pc) ∧
    (∀ pc, pc.state = PlayerState.PLAY → LockSetPause false pc = pc) := by
  refine ⟨?_, ?_, ?_, ?_⟩
  · intro f pc
    cases hf : f <;> cases hs : pc.state <;>
      simp [LockSetPause, PauseLocked, processPauseCommand, hs]
  · intro f pc hs
    cases f <;> simp [LockSetPause, hs]
  · intro pc hs
    simp [LockSetPause, hs]
  · intro pc hs
    simp [LockSetPause, hs]

/-- Witness for claim C10 at a concrete stopped control. -/
theorem lockSetPause_idempotent_witness :
    LockSetPause true pc0 = pc0 :=
  lockSetPause_idempotent.2.1 true pc0 rfl

end MPD
